import Mathlib

/-!
Shallow embedding of the paystack-backend webhook server.

The repository is a set of near-duplicate Express servers.  The embedded
functions below are translated from the source files:

* HMAC-SHA512 signature verification: validateWebhook in part_001 lines
  41-47, part_002 lines 55-61 and server.js lines 191-197, and the inline
  check of the server.js webhook route (lines 54-96).  Node computes
  crypto.createHmac("sha512", secret).update(rawBody).digest("hex") and
  compares with string equality; the hash itself is the standard
  HMAC-SHA512 over bytes, implemented here concretely (FIPS 180-4 /
  RFC 2104) so that it is executable.
* Date arithmetic: JavaScript Date.setMonth(getMonth() + 1) keeps the
  day-of-month and lets the epoch arithmetic roll an out-of-range day over
  into the next month; addOneMonthJs mirrors that (assuming a UTC server
  timezone, so local time and UTC coincide).  toISOString and the
  split("T")[0] formatting of part_003 are mirrored by isoDateTime and
  isoDate at date granularity.
* updateUserSubscription: part_002 lines 65-91 (identical to server.js
  lines 203-230): exact-equality email lookup, then a record overwrite
  whose dates derive from the current time.
* The webhook route of server.js lines 54-96 (processEventServer) and of
  part_003 lines 54-137 (processEventPart3).  Network calls (the provider
  verification) are modeled as a total function from reference to status
  string; JSON parsing is abstracted by taking the already-parsed event as
  input, since every claim under scrutiny starts after the parse.
* sanitizeEmail and the create-access-code route of part_002 lines 98-118
  (same condition as part_001 lines 65-93).
-/

/-! ## Bytes, words and hex -/

/-- Modulus for 64-bit words. -/
def M64 : Nat := 18446744073709551616

/-- Right rotation of a 64-bit word. -/
def rotr64 (n x : Nat) : Nat :=
  ((x >>> n) ||| (x <<< (64 - n))) % M64

/-- Logical right shift. -/
def shr64 (n x : Nat) : Nat := x >>> n

/-- SHA-512 big sigma 0. -/
def bsig0 (x : Nat) : Nat := (rotr64 28 x) ^^^ (rotr64 34 x) ^^^ (rotr64 39 x)

/-- SHA-512 big sigma 1. -/
def bsig1 (x : Nat) : Nat := (rotr64 14 x) ^^^ (rotr64 18 x) ^^^ (rotr64 41 x)

/-- SHA-512 small sigma 0. -/
def ssig0 (x : Nat) : Nat := (rotr64 1 x) ^^^ (rotr64 8 x) ^^^ (shr64 7 x)

/-- SHA-512 small sigma 1. -/
def ssig1 (x : Nat) : Nat := (rotr64 19 x) ^^^ (rotr64 61 x) ^^^ (shr64 6 x)

/-- SHA-512 choice function; the complement of x is taken inside 64 bits. -/
def chF (x y z : Nat) : Nat := (x &&& y) ^^^ ((M64 - 1 - x) &&& z)

/-- SHA-512 majority function. -/
def majF (x y z : Nat) : Nat := (x &&& y) ^^^ (x &&& z) ^^^ (y &&& z)

/-- The 80 SHA-512 round constants of FIPS 180-4, written in decimal. -/
def sha512K : List Nat :=
  [4794697086780616226, 8158064640168781261, 13096744586834688815,
   16840607885511220156, 4131703408338449720, 6480981068601479193,
   10538285296894168987, 12329834152419229976, 15566598209576043074,
   1334009975649890238, 2608012711638119052, 6128411473006802146,
   8268148722764581231, 9286055187155687089, 11230858885718282805,
   13951009754708518548, 16472876342353939154, 17275323862435702243,
   1135362057144423861, 2597628984639134821, 3308224258029322869,
   5365058923640841347, 6679025012923562964, 8573033837759648693,
   10970295158949994411, 12119686244451234320, 12683024718118986047,
   13788192230050041572, 14330467153632333762, 15395433587784984357,
   489312712824947311, 1452737877330783856, 2861767655752347644,
   3322285676063803686, 5560940570517711597, 5996557281743188959,
   7280758554555802590, 8532644243296465576, 9350256976987008742,
   10552545826968843579, 11727347734174303076, 12113106623233404929,
   14000437183269869457, 14369950271660146224, 15101387698204529176,
   15463397548674623760, 17586052441742319658, 1182934255886127544,
   1847814050463011016, 2177327727835720531, 2830643537854262169,
   3796741975233480872, 4115178125766777443, 5681478168544905931,
   6601373596472566643, 7507060721942968483, 8399075790359081724,
   8693463985226723168, 9568029438360202098, 10144078919501101548,
   10430055236837252648, 11840083180663258601, 13761210420658862357,
   14299343276471374635, 14566680578165727644, 15097957966210449927,
   16922976911328602910, 17689382322260857208, 500013540394364858,
   748580250866718886, 1242879168328830382, 1977374033974150939,
   2944078676154940804, 3659926193048069267, 4368137639120453308,
   4836135668995329356, 5532061633213252278, 6448918945643986474,
   6902733635092675308, 7801388544844847127]

/-- The SHA-512 initial hash value of FIPS 180-4, written in decimal. -/
def sha512H0 : List Nat :=
  [7640891576956012808, 13503953896175478587, 4354685564936845355,
   11912009170470909681, 5840696475078001361, 11170449401992604703,
   2270897969802886507, 6620516959819538809]

/-- Iterate a function n times. -/
def iterApply {α : Type} (f : α → α) : Nat → α → α
  | 0, a => a
  | n + 1, a => iterApply f n (f a)

/-- One step of the message-schedule extension, on the reversed schedule. -/
def wStep (rw : List Nat) : List Nat :=
  ((ssig1 (rw.getD 1 0) + rw.getD 6 0 + ssig0 (rw.getD 14 0) + rw.getD 15 0) % M64) :: rw

/-- Extend a 16-word block to the 80-word message schedule. -/
def extendW (block : List Nat) : List Nat :=
  (iterApply wStep 64 block.reverse).reverse

/-- One SHA-512 round on the 8-word working state, given (Kt, Wt). -/
def roundStep (st : List Nat) (kw : Nat × Nat) : List Nat :=
  match st with
  | [a, b, c, d, e, f, g, h] =>
    let t1 := (h + bsig1 e + chF e f g + kw.1 + kw.2) % M64
    let t2 := (bsig0 a + majF a b c) % M64
    [(t1 + t2) % M64, a, b, c, (d + t1) % M64, e, f, g]
  | st => st

/-- The SHA-512 compression function on one 16-word block. -/
def compress (h : List Nat) (block : List Nat) : List Nat :=
  let w := extendW block
  let st := (sha512K.zip w).foldl roundStep h
  (h.zip st).map (fun p => (p.1 + p.2) % M64)

/-- Big-endian interpretation of a byte list as one word. -/
def bytesToWord (bs : List Nat) : Nat :=
  bs.foldl (fun acc b => acc * 256 + b) 0

/-- Fuel-driven chunking, structurally recursive so the kernel reduces it. -/
def chunksF {α : Type} (n : Nat) : Nat → List α → List (List α)
  | 0, _ => []
  | _, [] => []
  | fuel + 1, xs => xs.take n :: chunksF n fuel (xs.drop n)

/-- Split a list into chunks of n elements. -/
def chunkList {α : Type} (n : Nat) (xs : List α) : List (List α) :=
  chunksF n xs.length xs

/-- SHA-512 padding: append 0x80, zeros, and the 128-bit big-endian bit length. -/
def sha512pad (msg : List Nat) : List Nat :=
  let len := msg.length
  let padZeros := (128 - ((len + 17) % 128)) % 128
  let lenBits := len * 8
  let lenBytes := (List.range 16).map (fun i => (lenBits >>> ((15 - i) * 8)) % 256)
  msg ++ (128 :: List.replicate padZeros 0) ++ lenBytes

/-- SHA-512 of a byte list, as its 64 digest bytes. -/
def sha512 (msg : List Nat) : List Nat :=
  let blocks := (chunkList 128 (sha512pad msg)).map (fun b => (chunkList 8 b).map bytesToWord)
  let hFinal := blocks.foldl compress sha512H0
  hFinal.foldr (fun w acc =>
    [(w >>> 56) % 256, (w >>> 48) % 256, (w >>> 40) % 256, (w >>> 32) % 256,
     (w >>> 24) % 256, (w >>> 16) % 256, (w >>> 8) % 256, w % 256] ++ acc) []

/-- Lowercase hexadecimal digit for a value below 16. -/
def hexDigitChar (n : Nat) : Char :=
  Char.ofNat (if n < 10 then 48 + n else 87 + n)

/-- Lowercase hexadecimal encoding of a byte list, as digest("hex") produces. -/
def bytesToHex (bs : List Nat) : String :=
  String.mk (bs.foldr (fun b acc => hexDigitChar (b / 16) :: hexDigitChar (b % 16) :: acc) [])

/-- HMAC-SHA512 (RFC 2104): block size 128 bytes, ipad 0x36, opad 0x5c. -/
def hmacSha512 (key msg : List Nat) : List Nat :=
  let k0 := if key.length > 128 then sha512 key else key
  let kPad := k0 ++ List.replicate (128 - k0.length) 0
  let ipadKey := kPad.map (fun b => b ^^^ 0x36)
  let opadKey := kPad.map (fun b => b ^^^ 0x5c)
  sha512 (opadKey ++ sha512 (ipadKey ++ msg))

/-- The bytes of an ASCII string, as Node Buffer.from(s, "utf8") for ASCII. -/
def strToBytes (s : String) : List Nat := s.data.map Char.toNat

/-! ## Signature verification -/

/-- validateWebhook (part_001 lines 41-47, part_002 lines 55-61, server.js
lines 191-197): compute the lowercase-hex HMAC-SHA512 of the payload keyed by
the secret and compare to the received hash with string equality. -/
def validateWebhook (secret : List Nat) (receivedHash : String) (payload : List Nat) : Bool :=
  receivedHash == bytesToHex (hmacSha512 secret payload)

/-- Authentication head of the server.js webhook route (lines 56-72 together
with the surrounding try/catch): a missing header is rejected with 403; an
unset secret makes crypto.createHmac throw, so the catch responds 500; a
mismatched signature is rejected with 403.  none means the request passes
authentication and processing continues. -/
def webhookAuthStatus (secret : Option (List Nat)) (sig : Option String)
    (rawBody : List Nat) : Option Nat :=
  match sig with
  | none => some 403
  | some s =>
    match secret with
    | none => some 500
    | some k => if s == bytesToHex (hmacSha512 k rawBody) then none else some 403

/-! ## Dates with JavaScript setMonth semantics -/

/-- A calendar date, at the granularity the handlers persist. -/
structure Date where
  year : Nat
  month : Nat
  day : Nat
deriving DecidableEq, Repr

/-- Gregorian leap-year rule, as used by the JavaScript Date type. -/
def isLeapYear (y : Nat) : Bool :=
  (y % 4 == 0 && y % 100 != 0) || y % 400 == 0

/-- Number of days in a month (month is 1 to 12). -/
def daysInMonth (y m : Nat) : Nat :=
  if m == 2 then (if isLeapYear y then 29 else 28)
  else if m == 4 || m == 6 || m == 9 || m == 11 then 30
  else 31

/-- JavaScript d.setMonth(d.getMonth() + 1): the day-of-month is kept and an
out-of-range day rolls over into the following month (no clamping).  Since the
day is at most 31 and every month has at least 28 days, one carry suffices. -/
def addOneMonthJs (d : Date) : Date :=
  let y := if d.month == 12 then d.year + 1 else d.year
  let m := if d.month == 12 then 1 else d.month + 1
  let dim := daysInMonth y m
  if d.day ≤ dim then ⟨y, m, d.day⟩
  else if m == 12 then ⟨y + 1, 1, d.day - dim⟩
  else ⟨y, m + 1, d.day - dim⟩

/-- Two-digit zero padding. -/
def pad2 (n : Nat) : String :=
  if n < 10 then "0" ++ toString n else toString n

/-- The "yyyy-MM-dd" formatting that part_003 obtains via
toISOString().split("T")[0]. -/
def isoDate (d : Date) : String :=
  toString d.year ++ "-" ++ pad2 d.month ++ "-" ++ pad2 d.day

/-- toISOString() of a date-granularity instant (the handlers run with a UTC
clock; the time-of-day component is not observed by any claim). -/
def isoDateTime (d : Date) : String :=
  isoDate d ++ "T00:00:00.000Z"

/-- Numeric value of a decimal digit character. -/
def digitVal (c : Char) : Nat := c.toNat - 48

/-- Parse the date part of an ISO timestamp, as new Date(s) accepts it: either
exactly "yyyy-MM-dd", or that followed by a time part introduced by T.  An
out-of-range month or day makes the string an Invalid Date, hence none. -/
def parseJsDate (s : String) : Option Date :=
  let core : List Char → Option Date := fun cs =>
    match cs with
    | [y1, y2, y3, y4, h1, m1, m2, h2, d1, d2] =>
      if y1.isDigit && y2.isDigit && y3.isDigit && y4.isDigit && h1 == '-' &&
          m1.isDigit && m2.isDigit && h2 == '-' && d1.isDigit && d2.isDigit then
        let y := ((digitVal y1 * 10 + digitVal y2) * 10 + digitVal y3) * 10 + digitVal y4
        let m := digitVal m1 * 10 + digitVal m2
        let d := digitVal d1 * 10 + digitVal d2
        if 1 ≤ m && m ≤ 12 && 1 ≤ d && d ≤ daysInMonth y m then some ⟨y, m, d⟩
        else none
      else none
    | _ => none
  if s.data.length == 10 then core s.data
  else if s.data.length > 10 && s.data.getD 10 ' ' == 'T' then core (s.data.take 10)
  else none

/-! ## Email sanitization -/

/-- ASCII lowering, as String.prototype.toLowerCase acts on ASCII emails. -/
def jsToLower (s : String) : String :=
  String.mk (s.data.map Char.toLower)

/-- Whitespace trimming from both ends, as String.prototype.trim. -/
def jsTrim (s : String) : String :=
  String.mk (((s.data.dropWhile Char.isWhitespace).reverse.dropWhile Char.isWhitespace).reverse)

/-- The transformation sanitizeEmail applies to a truthy email string. -/
def sanitizeStr (s : String) : String := jsTrim (jsToLower s)

/-- sanitizeEmail (part_002 line 63, server.js lines 199-201): a missing or
empty email is falsy and maps to null; otherwise toLowerCase().trim(). -/
def sanitizeEmail (email : Option String) : Option String :=
  match email with
  | none => none
  | some s => if s == "" then none else some (sanitizeStr s)

/-! ## The subscription update of part_002 / server.js -/

/-- The record fields written by updateUserSubscription (part_002 lines
78-83, server.js lines 217-222). -/
structure SubRecord where
  isPremium : Bool
  subscriptionStart : String
  subscriptionEnd : String
  lastPaymentReference : Option String
deriving DecidableEq, Repr

/-- A user node of the realtime database: key, email field, and the
subscription fields (none before the first update). -/
structure DbUser where
  uid : String
  email : String
  record : Option SubRecord
deriving DecidableEq, Repr

/-- Overwrite the subscription fields of the user with the given key. -/
def setUserRecord (db : List DbUser) (uid : String) (rec : SubRecord) : List DbUser :=
  db.map (fun u => if u.uid == uid then { u with record := some rec } else u)

/-- updateUserSubscription (part_002 lines 65-91, server.js lines 203-230):
look the email up by exact equality (orderByChild("email").equalTo(email));
when no user matches, return false and change nothing; otherwise overwrite the
record of the first match with isPremium true, subscriptionStart the current
time, subscriptionEnd one JavaScript month later, and the payment reference. -/
def updateUserSubscription (db : List DbUser) (reference email : String)
    (now : Date) : Bool × List DbUser :=
  match db.find? (fun u => u.email == email) with
  | none => (false, db)
  | some u =>
    (true, setUserRecord db u.uid
      ⟨true, isoDateTime now, isoDateTime (addOneMonthJs now), some reference⟩)

/-! ## The webhook events and the two handler bodies -/

/-- A parsed charge event: event.event, event.data.reference,
event.data.customer.email and event.data.paid_at. -/
structure WebhookEvent where
  kind : String
  reference : String
  email : String
  paidAt : Option String
deriving DecidableEq, Repr

/-- Post-authentication body of the server.js webhook route (lines 74-95).
The provider verification call is modeled as a total function from reference
to the returned status string.  On charge.success with a verified status the
subscription update runs (its boolean result is ignored); every path ends in
res.sendStatus(200). -/
def processEventServer (verif : String → String) (now : Date)
    (db : List DbUser) (ev : WebhookEvent) : Nat × List DbUser :=
  if ev.kind == "charge.success" then
    if verif ev.reference == "success" then
      (200, (updateUserSubscription db ev.reference ev.email now).2)
    else (200, db)
  else (200, db)

/-- A Firebase Authentication user, as listUsers returns it. -/
structure AuthUser where
  uid : String
  email : String
deriving DecidableEq, Repr

/-- The record fields written by the part_003 handler (lines 120-126). -/
structure SubRecordP3 where
  isFreeUser : Bool
  premiumMonths : Nat
  subscription : String
  subscriptionStartDate : String
  subscriptionEndDate : String
deriving DecidableEq, Repr

/-- Overwrite or insert the part_003 record under the given uid. -/
def dbSetP3 (db : List (String × SubRecordP3)) (uid : String) (rec : SubRecordP3) :
    List (String × SubRecordP3) :=
  if db.any (fun p => p.1 == uid) then
    db.map (fun p => if p.1 == uid then (p.1, rec) else p)
  else db ++ [(uid, rec)]

/-- Post-authentication body of the part_003 webhook route (lines 77-136).
On charge.success: a missing paid_at is rejected with 400; an unparsable
paid_at is rejected with 400; the subscription window is paid_at plus one
JavaScript month, formatted "yyyy-MM-dd"; the user is looked up by exact
email equality over listUsers and a miss is rejected with 404; otherwise the
record is overwritten and the route responds 200.  Any other event kind is
acknowledged with 200. -/
def processEventPart3 (authUsers : List AuthUser) (db : List (String × SubRecordP3))
    (ev : WebhookEvent) : Nat × List (String × SubRecordP3) :=
  if ev.kind == "charge.success" then
    match ev.paidAt with
    | none => (400, db)
    | some s =>
      match parseJsDate s with
      | none => (400, db)
      | some start =>
        let endDate := addOneMonthJs start
        match authUsers.find? (fun u => u.email == ev.email) with
        | none => (404, db)
        | some u =>
          (200, dbSetP3 db u.uid ⟨false, 1, "Premium", isoDate start, isoDate endDate⟩)
  else (200, db)

/-! ## The create-access-code route -/

/-- The amount field of a create-access-code request body: absent, a number,
or some other JSON value with the given truthiness. -/
inductive AmountVal where
  | missingA : AmountVal
  | numA : Int → AmountVal
  | otherA : Bool → AmountVal
deriving DecidableEq, Repr

/-- Truthiness of the amount, as the guard !amount reads it. -/
def amountFalsy : AmountVal → Bool
  | .missingA => true
  | .numA n => n == 0
  | .otherA truthy => !truthy

/-- Whether typeof amount === "number". -/
def amountIsNumber : AmountVal → Bool
  | .numA _ => true
  | _ => false

/-- Whether the amount, known to be a number, satisfies amount <= 0. -/
def amountLe0 : AmountVal → Bool
  | .numA n => n ≤ 0
  | _ => false

/-- The numeric value of the amount, for the branch where it is a number. -/
def amountNum : AmountVal → Int
  | .numA n => n
  | _ => 0

/-- Truthiness of the sanitized email, as the guard !email reads it. -/
def emailFalsy : Option String → Bool
  | none => true
  | some s => s == ""

/-- The observable outcome of the create-access-code route: a 400 response
with no outbound provider call, or the initialize call with the forwarded
email and amount in kobo. -/
inductive CAOutcome where
  | badRequest : CAOutcome
  | callProvider : String → Int → CAOutcome
deriving DecidableEq, Repr

/-- The create-access-code route (part_002 lines 98-118; part_001 lines
65-93 with the same condition split in two): sanitize the email, reject with
400 unless the email is truthy and the amount is a strictly positive number,
otherwise call the provider with the amount multiplied by 100. -/
def createAccessCode (rawEmail : Option String) (amount : AmountVal) : CAOutcome :=
  let email := sanitizeEmail rawEmail
  if emailFalsy email || amountFalsy amount || !amountIsNumber amount || amountLe0 amount then
    CAOutcome.badRequest
  else
    CAOutcome.callProvider (email.getD "") (amountNum amount * 100)

/-! ## Concrete inputs used by scenario theorems -/

/-- A provider verification that reports success for every reference. -/
def verifSuccess : String → String := fun _ => "success"

/-- A database with one user and no subscription fields yet. -/
def dbOneUser : List DbUser := [⟨"u1", "a@example.com", none⟩]

/-- The scenario event of the specification: charge.success, reference
ref-123, payer a@example.com, paid at 2024-03-10. -/
def evScenario : WebhookEvent :=
  ⟨"charge.success", "ref-123", "a@example.com", some "2024-03-10T00:00:00Z"⟩

/-- A charge.success event paid on 2024-01-31, the end-of-month probe. -/
def evJan31 : WebhookEvent :=
  ⟨"charge.success", "ref-eom", "a@example.com", some "2024-01-31"⟩

/-- The single Firebase Authentication user of the scenarios. -/
def authOneUser : List AuthUser := [⟨"u1", "a@example.com"⟩]

/-- A charge.success event whose payer email matches no stored user. -/
def evOtherEmail : WebhookEvent :=
  ⟨"charge.success", "ref-9", "b@example.com", some "2024-03-10T00:00:00Z"⟩

/-- A database whose stored email differs from the webhook email
a@example.com only by letter case and surrounding whitespace. -/
def dbCased : List DbUser := [⟨"u1", " A@Example.com", none⟩]

set_option maxRecDepth 40000

/-! ## Sanity checks of the hash implementation -/

/-- FIPS 180-4 test vector: SHA-512 of the empty message. -/
example :
    bytesToHex (sha512 []) =
    "cf83e1357eefb8bdf1542850d66d8007d620e4050b5715dc83f4a921d36ce9ce47d0d13c5d85f2b0ff8318d2877eec2f63b931bd47417a81a538327af927da3e" := by
  decide

/-- RFC 4231 test case 1: HMAC-SHA512 with a 20-byte 0x0b key of "Hi There". -/
example :
    bytesToHex (hmacSha512 (List.replicate 20 0x0b) (strToBytes "Hi There")) =
    "87aa7cdea5ef619d4ff0b4241a1d6cb02379f4e2ce4ec2787ad0b30545e17cdedaa833b7d6b8a702038b274eaea3f4e4be9d914eeb61f1702e696c203a126854" := by
  decide


/-! ## C5: signature verification is comparison against the keyed hash -/

/-- C5: for every secret K and payload P, validateWebhook accepts exactly the
lowercase-hexadecimal HMAC-SHA512 of P keyed by K: it returns true on that
signature and false on any other string. -/
theorem validateWebhook_true_iff_hmac :
    ∀ (secret payload : List Nat) (s : String),
      validateWebhook secret (bytesToHex (hmacSha512 secret payload)) payload = true ∧
      (s ≠ bytesToHex (hmacSha512 secret payload) → validateWebhook secret s payload = false) := by
  intro secret payload s
  constructor
  · simp [validateWebhook]
  · intro h
    unfold validateWebhook
    exact beq_eq_false_iff_ne.mpr h

/-- C5 witness: the law instantiated at secret 0x6b, payload 0x61 and the
mismatching claimed signature "x". -/
theorem validateWebhook_true_iff_hmac_witness :
    validateWebhook [107] (bytesToHex (hmacSha512 [107] [97])) [97] = true ∧
    validateWebhook [107] "x" [97] = false :=
  ⟨(validateWebhook_true_iff_hmac [107] [97] "x").1,
   (validateWebhook_true_iff_hmac [107] [97] "x").2 (by decide)⟩

/-! ## C6: failure behavior of the verification boundary -/

/-- C6 counterexample: with an empty signing secret, verification does not
fail: the empty string is used as an ordinary HMAC key, so the signature
computed with the empty key over the payload (here the single byte 0x7a) is
accepted.  This refutes the claim that an unset or empty secret never yields
any outcome other than verification failure. -/
theorem emptySecret_signature_accepted :
    validateWebhook [] (bytesToHex (hmacSha512 [] [122])) [122] = true := by
  simp [validateWebhook]

/-- C6 amended: a missing signature header is rejected with 403; an unset
secret makes crypto.createHmac throw, so the route responds 500 rather than
returning a verification failure; a mismatched signature is rejected with
403; but an empty secret behaves as an ordinary HMAC key, whose signatures
are accepted. -/
theorem webhookAuth_failure_modes :
    (∀ (secret : Option (List Nat)) (raw : List Nat),
      webhookAuthStatus secret none raw = some 403) ∧
    (∀ (s : String) (raw : List Nat),
      webhookAuthStatus none (some s) raw = some 500) ∧
    (∀ (k : List Nat) (s : String) (raw : List Nat),
      s ≠ bytesToHex (hmacSha512 k raw) →
      webhookAuthStatus (some k) (some s) raw = some 403) ∧
    (∀ p : List Nat, validateWebhook [] (bytesToHex (hmacSha512 [] p)) p = true) := by
  refine ⟨fun secret raw => rfl, fun s raw => rfl, fun k s raw h => ?_, fun p => ?_⟩
  · simp [webhookAuthStatus, beq_eq_false_iff_ne.mpr h]
  · simp [validateWebhook]

/-- C6 amended witness: the failure modes at concrete inputs. -/
theorem webhookAuth_failure_modes_witness :
    webhookAuthStatus (some [107]) none [97] = some 403 ∧
    webhookAuthStatus none (some "x") [97] = some 500 ∧
    webhookAuthStatus (some [107]) (some "x") [97] = some 403 ∧
    validateWebhook [] (bytesToHex (hmacSha512 [] [97])) [97] = true :=
  ⟨webhookAuth_failure_modes.1 (some [107]) [97],
   webhookAuth_failure_modes.2.1 "x" [97],
   webhookAuth_failure_modes.2.2.1 [107] "x" [97] (by decide),
   webhookAuth_failure_modes.2.2.2 [97]⟩

/-! ## C1: there is no idempotency guard -/

/-- C1 counterexample: delivering the same charge.success event with
reference ref-123 a second time (one day later) mutates the subscription
record again — the stored window moves from the first receipt day to the
second — while the endpoint responds 200 both times.  This refutes the claim
that a second delivery of an already-applied reference causes no record
mutation. -/
theorem duplicateDelivery_mutates_record :
    ((processEventServer verifSuccess ⟨2024, 3, 11⟩
        (processEventServer verifSuccess ⟨2024, 3, 10⟩ dbOneUser evScenario).2 evScenario).2 ≠
      (processEventServer verifSuccess ⟨2024, 3, 10⟩ dbOneUser evScenario).2) ∧
    (processEventServer verifSuccess ⟨2024, 3, 11⟩
        (processEventServer verifSuccess ⟨2024, 3, 10⟩ dbOneUser evScenario).2 evScenario).1 = 200 ∧
    (processEventServer verifSuccess ⟨2024, 3, 10⟩ dbOneUser evScenario).1 = 200 := by
  decide

/-- C1 amended: the webhook handler keeps no record of processed references.
Every delivery is acknowledged with 200, and every delivery of a verified
charge.success event — including a redelivery of an already-applied
reference — runs updateUserSubscription again, overwriting the record with a
window derived from the current receipt time. -/
theorem webhook_redelivery_reprocessed :
    ∀ (verif : String → String) (now : Date) (db : List DbUser) (ev : WebhookEvent),
      (processEventServer verif now db ev).1 = 200 ∧
      (ev.kind = "charge.success" → verif ev.reference = "success" →
        (processEventServer verif now db ev).2 =
          (updateUserSubscription db ev.reference ev.email now).2) := by
  intro verif now db ev
  constructor
  · rcases eq_or_ne ev.kind "charge.success" with h1 | h1
    · rcases eq_or_ne (verif ev.reference) "success" with h2 | h2
      · simp [processEventServer, h1, h2]
      · simp [processEventServer, h1, beq_eq_false_iff_ne.mpr h2]
    · simp [processEventServer, beq_eq_false_iff_ne.mpr h1]
  · intro h1 h2
    simp [processEventServer, h1, h2]

/-- C1 amended witness: a delivery of the scenario event is acknowledged with
200 and applies the subscription update for its receipt day. -/
theorem webhook_redelivery_reprocessed_witness :
    (processEventServer verifSuccess ⟨2024, 3, 11⟩ dbOneUser evScenario).1 = 200 ∧
    (processEventServer verifSuccess ⟨2024, 3, 11⟩ dbOneUser evScenario).2 =
      (updateUserSubscription dbOneUser "ref-123" "a@example.com" ⟨2024, 3, 11⟩).2 :=
  ⟨(webhook_redelivery_reprocessed verifSuccess ⟨2024, 3, 11⟩ dbOneUser evScenario).1,
   (webhook_redelivery_reprocessed verifSuccess ⟨2024, 3, 11⟩ dbOneUser evScenario).2 rfl rfl⟩

/-! ## C2: end-of-month arithmetic -/

/-- C2: evaluation of the code at the failing input.  For a charge.success
event paid on 2024-01-31, Date.setMonth rolls the day over: the computed
subscriptionEnd is 2024-03-02, not the claimed end-of-month clamp 2024-02-29.
The part_003 pipeline persists subscriptionEndDate "2024-03-02", and the
part_002 updateUserSubscription invoked on a 2024-01-31 clock stores the same
rolled-over end. -/
theorem jan31_plus_month_rolls_to_march2 :
    addOneMonthJs ⟨2024, 1, 31⟩ = ⟨2024, 3, 2⟩ ∧
    processEventPart3 authOneUser [] evJan31 =
      (200, [("u1", ⟨false, 1, "Premium", "2024-01-31", "2024-03-02"⟩)]) ∧
    (updateUserSubscription dbOneUser "ref-eom" "a@example.com" ⟨2024, 1, 31⟩).2 =
      [⟨"u1", "a@example.com",
        some ⟨true, "2024-01-31T00:00:00.000Z", "2024-03-02T00:00:00.000Z", some "ref-eom"⟩⟩] := by
  decide

/-! ## C3: acknowledgment on downstream failure -/

/-- C3 counterexample: a validly signed, well-formed charge.success event
whose payer email matches no user is answered by the part_003 webhook route
with status 404 — not a success status — refuting the claim that the
endpoint acknowledges successfully regardless of downstream outcome. -/
theorem userNotFound_responds_404 :
    processEventPart3 [] [] evScenario = (404, []) ∧ (404 : Nat) ≠ 200 := by
  decide

/-- C3 amended: whether an event is acknowledged despite a downstream
user-lookup failure depends on the handler variant.  The part_003 route
responds 404 and mutates nothing when the payer email matches no user; the
server.js route responds 200 and mutates nothing (updateUserSubscription
returns false and the handler ignores the result). -/
theorem ack_on_user_not_found_by_handler :
    (∀ (users : List AuthUser) (db : List (String × SubRecordP3)) (ev : WebhookEvent)
        (s : String) (d : Date),
      ev.kind = "charge.success" → ev.paidAt = some s → parseJsDate s = some d →
      (∀ u ∈ users, u.email ≠ ev.email) →
      processEventPart3 users db ev = (404, db)) ∧
    (∀ (verif : String → String) (now : Date) (db : List DbUser) (ev : WebhookEvent),
      (∀ u ∈ db, u.email ≠ ev.email) →
      processEventServer verif now db ev = (200, db)) := by
  constructor
  · intro users db ev s d h1 h2 h3 h4
    have hfind : users.find? (fun u => u.email == ev.email) = none :=
      List.find?_eq_none.mpr (fun u hu => by simpa using h4 u hu)
    simp [processEventPart3, h1, h2, h3, hfind]
  · intro verif now db ev h
    have hfind : db.find? (fun u => u.email == ev.email) = none :=
      List.find?_eq_none.mpr (fun u hu => by simpa using h u hu)
    rcases eq_or_ne ev.kind "charge.success" with h1 | h1
    · rcases eq_or_ne (verif ev.reference) "success" with h2 | h2
      · simp [processEventServer, h1, h2, updateUserSubscription, hfind]
      · simp [processEventServer, h1, beq_eq_false_iff_ne.mpr h2]
    · simp [processEventServer, beq_eq_false_iff_ne.mpr h1]

/-- C3 amended witness: the two handler behaviors at an event whose payer
email b@example.com matches no stored user. -/
theorem ack_on_user_not_found_by_handler_witness :
    processEventPart3 authOneUser [] evOtherEmail = (404, []) ∧
    processEventServer verifSuccess ⟨2024, 3, 10⟩ dbOneUser evOtherEmail = (200, dbOneUser) :=
  ⟨ack_on_user_not_found_by_handler.1 authOneUser [] evOtherEmail
      "2024-03-10T00:00:00Z" ⟨2024, 3, 10⟩ rfl rfl (by decide) (by decide),
   ack_on_user_not_found_by_handler.2 verifSuccess ⟨2024, 3, 10⟩ dbOneUser evOtherEmail
      (by decide)⟩

/-! ## C4: the scenario event -/

/-- C4 counterexample: in the handler that writes isPremium and
lastPaymentReference (server.js), the persisted subscriptionStart derives
from the receipt time, not from paidAt: receiving the scenario event
(paidAt 2024-03-10) on 2024-03-11 stores subscriptionStart
2024-03-11T00:00:00.000Z, which is not the claimed 2024-03-10. -/
theorem scenario_start_uses_receipt_time :
    processEventServer verifSuccess ⟨2024, 3, 11⟩ dbOneUser evScenario =
      (200, [⟨"u1", "a@example.com",
        some ⟨true, "2024-03-11T00:00:00.000Z", "2024-04-11T00:00:00.000Z",
          some "ref-123"⟩⟩]) ∧
    ("2024-03-11T00:00:00.000Z" : String) ≠ "2024-03-10" := by
  decide

/-- C4 amended: on the scenario event the part_003 route derives the dates
from paidAt — it persists subscription Premium, isFreeUser false,
premiumMonths 1, subscriptionStartDate 2024-03-10 and subscriptionEndDate
2024-04-10, without any isPremium or lastPaymentReference field — and
responds 200; the server.js route persists isPremium true and
lastPaymentReference ref-123 but derives subscriptionStart and
subscriptionEnd from the receipt time, and responds 200. -/
theorem scenario_by_handler :
    processEventPart3 authOneUser [] evScenario =
      (200, [("u1", ⟨false, 1, "Premium", "2024-03-10", "2024-04-10"⟩)]) ∧
    ∀ d : Date, processEventServer verifSuccess d dbOneUser evScenario =
      (200, [⟨"u1", "a@example.com",
        some ⟨true, isoDateTime d, isoDateTime (addOneMonthJs d), some "ref-123"⟩⟩]) := by
  constructor
  · decide
  · intro d
    rfl

/-! ## C7: paid_at validation -/

/-- C7 counterexample: a charge.success event with no paid_at field is
rejected by the part_003 route with status 400 and no record mutation,
refuting the claim that an absent paidAt is valid and defaults to the
receipt time. -/
theorem missing_paidAt_rejected_400 :
    processEventPart3 authOneUser [] ⟨"charge.success", "ref-1", "a@example.com", none⟩ =
      (400, []) ∧ (400 : Nat) ≠ 200 := by
  decide

/-- C7 amended: the part_003 route rejects a charge.success event whose
paid_at is absent with status 400, and likewise one whose paid_at is present
but unparsable; neither defaults to the receipt time, and no payerEmail
presence check exists (an unmatched email surfaces later as 404). -/
theorem paidAt_validation :
    ∀ (users : List AuthUser) (db : List (String × SubRecordP3)) (ev : WebhookEvent),
      ev.kind = "charge.success" →
      (ev.paidAt = none → processEventPart3 users db ev = (400, db)) ∧
      (∀ s, ev.paidAt = some s → parseJsDate s = none →
        processEventPart3 users db ev = (400, db)) := by
  intro users db ev h1
  constructor
  · intro h2
    simp [processEventPart3, h1, h2]
  · intro s h2 h3
    simp [processEventPart3, h1, h2, h3]

/-- C7 amended witness: the 400 rejections at concrete events with paid_at
absent and with paid_at "not-a-date". -/
theorem paidAt_validation_witness :
    processEventPart3 authOneUser [] ⟨"charge.success", "r1", "a@example.com", none⟩ =
      (400, []) ∧
    processEventPart3 authOneUser [] ⟨"charge.success", "r2", "a@example.com",
      some "not-a-date"⟩ = (400, []) :=
  ⟨(paidAt_validation authOneUser [] ⟨"charge.success", "r1", "a@example.com", none⟩ rfl).1 rfl,
   (paidAt_validation authOneUser [] ⟨"charge.success", "r2", "a@example.com",
      some "not-a-date"⟩ rfl).2 "not-a-date" rfl (by decide)⟩

/-! ## C9: case-sensitive lookup versus sanitized initiation -/

/-- C9: the create-access-code route forwards the lowercased and trimmed
email to the provider, while updateUserSubscription looks the payer email up
by exact, case-sensitive string equality; hence whenever every stored email
differs from the webhook email — in particular when it differs only by
letter case or surrounding whitespace — the lookup finds no user, returns
false, and mutates no record. -/
theorem email_lookup_case_sensitive :
    (∀ (raw : String) (n : Int), raw ≠ "" → sanitizeStr raw ≠ "" → 0 < n →
      createAccessCode (some raw) (AmountVal.numA n) =
        CAOutcome.callProvider (sanitizeStr raw) (n * 100)) ∧
    (∀ (db : List DbUser) (reference email : String) (now : Date),
      (∀ u ∈ db, sanitizeStr u.email = sanitizeStr email ∧ u.email ≠ email) →
      updateUserSubscription db reference email now = (false, db)) := by
  constructor
  · intro raw n h1 h2 h3
    have e1 : (raw == "") = false := beq_eq_false_iff_ne.mpr h1
    have e2 : (sanitizeStr raw == "") = false := beq_eq_false_iff_ne.mpr h2
    have e3 : (n == 0) = false := beq_eq_false_iff_ne.mpr (by omega)
    have e4 : decide (n ≤ 0) = false := decide_eq_false (by omega)
    simp [createAccessCode, sanitizeEmail, emailFalsy, amountFalsy, amountIsNumber,
      amountLe0, amountNum, e1, e2, e3, e4]
  · intro db reference email now h
    have hfind : db.find? (fun u => u.email == email) = none :=
      List.find?_eq_none.mpr (fun u hu => by simpa using (h u hu).2)
    simp [updateUserSubscription, hfind]

/-- C9 witness: initiation with raw email " A@Example.com" forwards
a@example.com, yet the webhook lookup of a@example.com against the stored
" A@Example.com" finds no user and changes nothing. -/
theorem email_lookup_case_sensitive_witness :
    createAccessCode (some " A@Example.com") (AmountVal.numA 50) =
      CAOutcome.callProvider "a@example.com" 5000 ∧
    updateUserSubscription dbCased "ref-123" "a@example.com" ⟨2024, 3, 10⟩ =
      (false, dbCased) :=
  ⟨email_lookup_case_sensitive.1 " A@Example.com" 50 (by decide) (by decide) (by decide),
   email_lookup_case_sensitive.2 dbCased "ref-123" "a@example.com" ⟨2024, 3, 10⟩ (by decide)⟩

/-! ## C10: create-access-code validation and kobo conversion -/

/-- C10: the create-access-code route responds 400 with no outbound provider
call whenever the sanitized email is empty or the amount is not a strictly
positive number (missing, non-numeric, zero or negative); otherwise it calls
the provider with the requested amount multiplied by 100 (naira to kobo). -/
theorem createAccessCode_validation :
    ∀ (rawEmail : Option String) (amount : AmountVal),
      (((sanitizeEmail rawEmail).getD "" = "" ∨
          (∀ n : Int, amount = AmountVal.numA n → n ≤ 0)) →
        createAccessCode rawEmail amount = CAOutcome.badRequest) ∧
      (∀ (e : String) (n : Int), sanitizeEmail rawEmail = some e → e ≠ "" →
        amount = AmountVal.numA n → 0 < n →
        createAccessCode rawEmail amount = CAOutcome.callProvider e (n * 100)) := by
  intro rawEmail amount
  constructor
  · rintro (h | h)
    · cases hra : sanitizeEmail rawEmail with
      | none => simp [createAccessCode, hra, emailFalsy]
      | some e =>
        rw [hra] at h
        simp only [Option.getD_some] at h
        simp [createAccessCode, hra, emailFalsy, h]
    · cases amount with
      | missingA => simp [createAccessCode, amountFalsy]
      | numA n =>
        have e4 : decide (n ≤ 0) = true := decide_eq_true (h n rfl)
        simp [createAccessCode, amountLe0, e4]
      | otherA t => simp [createAccessCode, amountIsNumber]
  · intro e n h1 h2 h3 h4
    subst h3
    have e2 : (e == "") = false := beq_eq_false_iff_ne.mpr h2
    have e3 : (n == 0) = false := beq_eq_false_iff_ne.mpr (by omega)
    have e4 : decide (n ≤ 0) = false := decide_eq_false (by omega)
    simp [createAccessCode, h1, emailFalsy, amountFalsy, amountIsNumber, amountLe0,
      amountNum, e2, e3, e4]

/-- C10 witness: a missing amount is rejected, and email a@b.com with amount
50 calls the provider with 5000 kobo. -/
theorem createAccessCode_validation_witness :
    createAccessCode (some "a@b.com") AmountVal.missingA = CAOutcome.badRequest ∧
    createAccessCode (some "a@b.com") (AmountVal.numA 50) =
      CAOutcome.callProvider "a@b.com" 5000 :=
  ⟨(createAccessCode_validation (some "a@b.com") AmountVal.missingA).1
      (Or.inr fun n h => nomatch h),
   (createAccessCode_validation (some "a@b.com") (AmountVal.numA 50)).2 "a@b.com" 50
      (by decide) (by decide) rfl (by decide)⟩
